import Mathlib

/-!
Verification of the declarative memory-layout marker system of `gd.py`
(`src/gd/memory/marker.py`): the marker/descriptor vocabulary, the type
constructor (metaclass parametrization and the `derive` flag), and the
resolution of descriptors against a platform context into concrete layouts.

The file is a shallow embedding.  Classes produced by the metaclasses in
`marker.py` are modelled as `PyClass` values; the payload a descriptor class
carries (pointee, element and length, fill table, fields, flags) is the
`ClassKind`/`Desc` data below.  Python exceptions become the `Err` type in an
`Except` monad.  The resolution engine (`gd/memory/visitor.py`) and the
platform module (`gd/platform.py`) are not part of the sources; where a
definition depends on them it is modelled from the specification and says so
in its doc comment.
-/

namespace GD

/-- Modelled from the spec: the platform/OS enum supplied by `gd/platform.py`
(absent from the sources).  The spec names `windows` and `macos` explicitly;
the remaining members cover the usual targets. -/
inductive Platform where
  | windows
  | macos
  | linux
  | android
  | ios
  | unknown
deriving DecidableEq, Repr

/-- Platform context a descriptor is resolved against: bit width plus OS/ABI
identifier, as passed to `MarkerType.create(bits, platform)`. -/
structure PlatformContext where
  bits : Nat
  platform : Platform
deriving DecidableEq, Repr

/-- The primitive marker vocabulary: one constructor per `Marker` subclass of
`marker.py` (`byte_t` through `string_t`, lines 92-219). -/
inductive PrimKind where
  | byte_t
  | ubyte_t
  | short_t
  | ushort_t
  | int_t
  | uint_t
  | long_t
  | ulong_t
  | longlong_t
  | ulonglong_t
  | int8_t
  | uint8_t
  | int16_t
  | uint16_t
  | int32_t
  | uint32_t
  | int64_t
  | uint64_t
  | intptr_t
  | uintptr_t
  | intsize_t
  | uintsize_t
  | float_t
  | double_t
  | float32_t
  | float64_t
  | bool_t
  | char_t
  | string_t
deriving DecidableEq, Repr

/-- A resolved concrete layout: size, alignment and (for composites) the
offset recorded per field name. -/
structure Layout where
  size : Nat
  align : Nat
  offsets : List (String × Nat)
deriving DecidableEq, Repr

/-- Errors of the marker system.  `cannotDerive` is the `TypeError` raised by
`MarkerType.assert_can_derive` (marker.py lines 241-243) and carries the class
name; `typeError` models the other `TypeError`s raised in `marker.py`;
`attributeError` models a Python attribute lookup failing because the
underscore-prefixed slot was never set.  The remaining kinds are the
resolution-time errors of the spec.  `fuelExhausted` is an artifact of the
embedding only: the resolver recurses on an explicit fuel argument and the
entry point supplies a bound (`fuelBound`) that dominates the depth of every
resolution, so the constructor is unreachable from `resolveDesc`. -/
inductive Err where
  | cannotDerive (clsName : String)
  | typeError (msg : String)
  | attributeError (attr : String)
  | voidNotDerivable
  | missingFillEntry
  | unsizedArray
  | recursiveLayout
  | missingName (s : String)
  | fuelExhausted
deriving DecidableEq, Repr

/-- A dynamic-fill table: byte count per `(bits, platform)` key, as built by
`DynamicFillType.new` (marker.py lines 464-473; declared type
`Dict[Tuple[int, Platform], int]`). -/
abbrev FillTable := List ((Nat × Platform) × Nat)

mutual
/-- Descriptor values: the data a parametrized marker class carries, plus the
`name` constructor referring to a named composite of an environment (used to
express descriptor graphs that mention themselves). -/
inductive Desc where
  | prim (k : PrimKind)
  | pointer (pointee : Desc) (signed : Bool)
  | array (elem : Desc) (length : Option Int)
  | dynamicFill (table : FillTable)
  | struct (fields : Fields) (vtable : Bool) (packed : Bool)
  | union (fields : Fields)
  | void
  | name (s : String)
/-- Ordered field list of a struct or union descriptor. -/
inductive Fields where
  | nil
  | cons (fieldName : String) (d : Desc) (rest : Fields)
end

/-- Environment of named composite descriptors, for descriptor graphs. -/
abbrev Env := List (String × Desc)

/-- Lookup of an exact `(bits, platform)` key in a dynamic-fill table. -/
def lookupFill : FillTable → Nat → Platform → Option Nat
  | [], _, _ => none
  | ((b, p), v) :: rest, bits, pf =>
      if b = bits ∧ p = pf then some v else lookupFill rest bits pf

/-- Lookup of a named descriptor in an environment. -/
def envLookup : Env → String → Option Desc
  | [], _ => none
  | (n, d) :: rest, s => if n = s then some d else envLookup rest s

/-- Modelled from the spec: the visitor's platform-indexed primitive size
table (`gd/memory/visitor.py` absent from the sources).  Fixed-width types
have their stated widths; `int` is 4 bytes; native `long` follows the
platform ABI convention (8 bytes at 64 bits except on windows); pointer-sized
and size types are `bits / 8`.  The spec gives no width for `string_t`; it is
modelled pointer-sized here and no claim depends on it. -/
def primSize (k : PrimKind) (ctx : PlatformContext) : Nat :=
  match k with
  | .byte_t | .ubyte_t | .int8_t | .uint8_t | .bool_t | .char_t => 1
  | .short_t | .ushort_t | .int16_t | .uint16_t => 2
  | .int_t | .uint_t | .int32_t | .uint32_t | .float_t | .float32_t => 4
  | .long_t | .ulong_t =>
      if ctx.bits = 64 ∧ ctx.platform ≠ Platform.windows then 8 else 4
  | .longlong_t | .ulonglong_t | .int64_t | .uint64_t | .double_t
  | .float64_t => 8
  | .intptr_t | .uintptr_t | .intsize_t | .uintsize_t => ctx.bits / 8
  | .string_t => ctx.bits / 8

/-- Modelled from the spec: a primitive resolves to its atomic layout, with
alignment equal to its size. -/
def primLayout (k : PrimKind) (ctx : PlatformContext) : Layout :=
  ⟨primSize k ctx, primSize k ctx, []⟩

/-- Round `off` up to the next multiple of `a` (identity when `a = 0`). -/
def alignUp (off a : Nat) : Nat :=
  off + (a - off % a) % a

/-- Lay struct fields out left to right from offset `off`: each field is
placed at the running offset, rounded up to the field's alignment unless
`packed`.  Returns the recorded offsets and the end offset. -/
def layoutFields (packed : Bool) (off : Nat) :
    List (String × Layout) → List (String × Nat) × Nat
  | [] => ([], off)
  | (n, l) :: rest =>
      let o := if packed then off else alignUp off l.align
      let r := layoutFields packed (o + l.size) rest
      ((n, o) :: r.1, r.2)

/-- Modelled from the spec: struct layout.  Fields are laid out in
declaration order; when `vtable` is set one pointer-width slot is reserved
before field 0; natural alignment padding is inserted between fields unless
`packed`; the alignment is the maximum member alignment (1 when packed) and
the total size rounds up to it (no rounding when packed). -/
def structLayout (ptrSize : Nat) (vtable packed : Bool)
    (fls : List (String × Layout)) : Layout :=
  let start := if vtable then ptrSize else 0
  let r := layoutFields packed start fls
  let maxAlign :=
    if packed then 1
    else (fls.map fun f => f.2.align).foldl max (if vtable then ptrSize else 1)
  ⟨if packed then r.2 else alignUp r.2 maxAlign, maxAlign, r.1⟩

/-- Modelled from the spec: union layout.  Every member sits at offset 0, the
size is the maximum member size and the alignment the maximum member
alignment. -/
def unionLayout (fls : List (String × Layout)) : Layout :=
  ⟨(fls.map fun f => f.2.size).foldl max 0,
   (fls.map fun f => f.2.align).foldl max 1,
   fls.map fun f => (f.1, 0)⟩

mutual
/-- Node count of a descriptor, used for the resolver's fuel bound. -/
def descSize : Desc → Nat
  | .prim _ => 1
  | .pointer pointee _ => 1 + descSize pointee
  | .array elem _ => 1 + descSize elem
  | .dynamicFill _ => 1
  | .struct fields _ _ => 1 + fieldsSize fields
  | .union fields => 1 + fieldsSize fields
  | .void => 1
  | .name _ => 1
/-- Node count of a field list. -/
def fieldsSize : Fields → Nat
  | .nil => 1
  | .cons _ d rest => 1 + descSize d + fieldsSize rest
end

/-- Resolve the fields of a struct with the given resolver.  Modelled from
the spec: an unsized array (`length = None`) is legal only as the final
field, where it contributes no size (its element's alignment is kept);
anywhere else it resolves like a standalone array and hence fails. -/
def resolveStructFields (res : List String → Desc → Except Err Layout)
    (visited : List String) : Fields → Except Err (List (String × Layout))
  | .nil => .ok []
  | .cons n (Desc.array elem none) .nil => do
      let l ← res visited elem
      .ok [(n, ⟨0, l.align, []⟩)]
  | .cons n d rest => do
      let l ← res visited d
      let ls ← resolveStructFields res visited rest
      .ok ((n, l) :: ls)

/-- Resolve the fields of a union with the given resolver. -/
def resolveUnionFields (res : List String → Desc → Except Err Layout)
    (visited : List String) : Fields → Except Err (List (String × Layout))
  | .nil => .ok []
  | .cons n d rest => do
      let l ← res visited d
      let ls ← resolveUnionFields res visited rest
      .ok ((n, l) :: ls)

/-- Modelled from the spec: the resolution engine (`gd/memory/visitor.py`
absent from the sources), as the per-kind rules of the spec's table.
Pointers occupy `bits / 8` bytes without resolving their pointee, which is
why pointer indirection breaks by-value cycles.  Named composites are looked
up in `env`; a name already on the `visited` path is a by-value cycle and is
rejected with `recursiveLayout`.  The `fuel` argument only makes the
recursion structural; the entry point `resolveDesc` passes a bound that
dominates the depth of every resolution, so the `fuelExhausted` branch is
unreachable from it. -/
def resolveD (env : Env) (ctx : PlatformContext) :
    Nat → List String → Desc → Except Err Layout
  | 0, _, _ => .error .fuelExhausted
  | fuel + 1, visited, d =>
    match d with
    | .prim k => .ok (primLayout k ctx)
    | .pointer _ _ => .ok ⟨ctx.bits / 8, ctx.bits / 8, []⟩
    | .array _ none => .error .unsizedArray
    | .array elem (some len) =>
        (resolveD env ctx fuel visited elem).map fun l =>
          ⟨l.size * len.toNat, l.align, []⟩
    | .dynamicFill table =>
        match lookupFill table ctx.bits ctx.platform with
        | some v => .ok ⟨v, 1, []⟩
        | none => .error .missingFillEntry
    | .struct fields vt pk =>
        (resolveStructFields (resolveD env ctx fuel) visited fields).map
          (structLayout (ctx.bits / 8) vt pk)
    | .union fields =>
        (resolveUnionFields (resolveD env ctx fuel) visited fields).map
          unionLayout
    | .void => .error .voidNotDerivable
    | .name s =>
        if s ∈ visited then .error .recursiveLayout
        else
          match envLookup env s with
          | some next => resolveD env ctx fuel (s :: visited) next
          | none => .error (.missingName s)

/-- Fuel bound for `resolveD`: the descriptor's own node count plus the node
count of every named descriptor of the environment (each name can be entered
at most once per path, the `visited` check rejects repeats) plus slack. -/
def fuelBound (env : Env) (d : Desc) : Nat :=
  descSize d + (env.map fun p => descSize p.2).sum + env.length + 1

/-- Resolution of a descriptor against a platform context. -/
def resolveDesc (env : Env) (ctx : PlatformContext) (d : Desc) :
    Except Err Layout :=
  resolveD env ctx (fuelBound env d) [] d

deriving instance DecidableEq for Except

/-- Payload attached to a class minted by one of the metaclasses of
`marker.py`: the per-kind underscore slots (`_type`, `_signed`, `_length`,
`_fill`, `_vtable`, `_packed`) together with the kind of descriptor the class
denotes.  An `Option` that is `none` models a slot that was never assigned
(so that reading it raises `AttributeError`). -/
inductive ClassKind where
  | pointer (type? : Option Desc) (signed : Bool)
  | array (type? : Option Desc) (length : Option Int)
  | dynamicFill (table : FillTable)
  | struct (fields : Fields) (vtable : Bool) (packed : Bool)
  | union (fields : Fields)
  | void

/-- A class created through the `MarkerType` metaclass family: its name, its
`_derive` flag and its payload. -/
structure PyClass where
  clsName : String
  derive : Bool
  kind : ClassKind

/-- Source `MarkerType.__new__` (marker.py lines 225-237): stores
`_derive := derive`; the Python signature defaults `derive` to `True`.  The
`kind` argument stands for the payload that subclass metaclasses attach to
the freshly created class. -/
def MarkerType_new (clsName : String) (derive : Bool) (kind : ClassKind) :
    PyClass :=
  ⟨clsName, derive, kind⟩

/-- Source `PointerType.__new__` (marker.py lines 278-295): forwards `derive`
to `MarkerType.__new__`; assigns `_type` only when the `type` argument is not
`None` (hence the `Option`), and always assigns `_signed`.  Python defaults:
`derive=True`, `type=None`, `signed=False`. -/
def PointerType_new (clsName : String) (derive : Bool) (type? : Option Desc)
    (signed : Bool) : PyClass :=
  MarkerType_new clsName derive (.pointer type? signed)

/-- Source `ArrayType.__new__` (marker.py lines 367-384): forwards `derive`;
assigns `_type` only when given, and `_length` unconditionally.  Python
defaults: `derive=True`, `type=None`, `length=None`. -/
def ArrayType_new (clsName : String) (derive : Bool) (type? : Option Desc)
    (length : Option Int) : PyClass :=
  MarkerType_new clsName derive (.array type? length)

/-- Source `DynamicFillType.__new__` (marker.py lines 446-462): accepts a
`derive` keyword but does NOT forward it to `super().__new__`, so `_derive`
always takes `MarkerType.__new__`'s default `True` no matter what was passed;
a missing `fill` becomes the empty table. -/
def DynamicFillType_new (clsName : String) (_derive : Bool)
    (fill? : Option FillTable) : PyClass :=
  MarkerType_new clsName true (.dynamicFill (fill?.getD []))

/-- Source `StructType.__new__` (marker.py lines 504-519): forwards `derive`;
stores `_vtable` and `_packed` (both defaulting to `False`).  The `fields`
argument stands for the field annotations of the class dict, consumed by the
resolution engine. -/
def StructType_new (clsName : String) (derive : Bool) (vtable packed : Bool)
    (fields : Fields) : PyClass :=
  MarkerType_new clsName derive (.struct fields vtable packed)

/-- Source `class Pointer(metaclass=PointerType)` (marker.py line 322): no
keyword arguments, so every `PointerType.__new__` default applies — in
particular `derive` is `True`. -/
def Pointer : PyClass := PointerType_new "Pointer" true none false

/-- Source `class MutPointer(Pointer)` (marker.py line 335): again created
with all defaults, hence `derive = True`. -/
def MutPointer : PyClass := PointerType_new "MutPointer" true none false

/-- Source `class Ref(Pointer)` (marker.py line 347): created with all
defaults, hence `derive = True`. -/
def Ref : PyClass := PointerType_new "Ref" true none false

/-- Source `class MutRef(Ref, MutPointer)` (marker.py line 351): created with
all defaults, hence `derive = True`. -/
def MutRef : PyClass := PointerType_new "MutRef" true none false

/-- Source `class ArrayBase(metaclass=ArrayType, derive=False)` (marker.py
line 414). -/
def ArrayBase : PyClass := ArrayType_new "ArrayBase" false none none

/-- Source `class Array(ArrayBase, derive=False)` (marker.py line 427). -/
def Array : PyClass := ArrayType_new "Array" false none none

/-- Source `class MutArray(Array, derive=False)` (marker.py line 431). -/
def MutArray : PyClass := ArrayType_new "MutArray" false none none

/-- Source `class DynamicFill(metaclass=DynamicFillType)` (marker.py line
480): created without keywords; since `DynamicFillType.__new__` never
forwards `derive` anyway, the flag is `True`. -/
def DynamicFill : PyClass := DynamicFillType_new "DynamicFill" true none

/-- Source `class Union(metaclass=MarkerType, derive=False)` (marker.py line
496). -/
def Union : PyClass := MarkerType_new "Union" false (.union .nil)

/-- Source `class Struct(metaclass=StructType, derive=False)` (marker.py line
530). -/
def Struct : PyClass := StructType_new "Struct" false false false .nil

/-- Source `class Void(metaclass=MarkerType, derive=False)` (marker.py line
546). -/
def Void : PyClass := MarkerType_new "Void" false .void

/-- Source `PointerType.new` (marker.py lines 304-311): creates
`class pointer(cls, type=type, signed=signed)` — a subclass of `cls` renamed
to `cls.__name__`, created without a `derive` keyword, so its flag takes the
default `True`. -/
def pointer_new (cls : PyClass) (type : Desc) (signed : Bool) : PyClass :=
  PointerType_new cls.clsName true (some type) signed

/-- Source `ArrayType.new` (marker.py lines 396-403): creates
`class array(cls, type=type, length=length)` renamed to `cls.__name__`,
without a `derive` keyword, so its flag takes the default `True`.  No
argument is validated. -/
def array_new (cls : PyClass) (type : Desc) (length : Option Int) : PyClass :=
  ArrayType_new cls.clsName true (some type) length

/-- Source `DynamicFillType.new` (marker.py lines 464-473): creates
`class offset(cls, fill=...)` renamed to `cls.__name__`.  The keyword-name to
`(bits, platform)` key translation done by `platform_from_string`
(`gd/platform.py`, absent from the sources) is abstracted: the method is
modelled as receiving the finished table. -/
def dynamic_fill_new (cls : PyClass) (fills : FillTable) : PyClass :=
  DynamicFillType_new cls.clsName true (some fills)

/-- Source module-level `pointer` (marker.py lines 339-340). -/
def pointer (type : Desc) (signed : Bool) : PyClass :=
  pointer_new Pointer type signed

/-- Source module-level `mut_pointer` (marker.py lines 343-344). -/
def mut_pointer (type : Desc) (signed : Bool) : PyClass :=
  pointer_new MutPointer type signed

/-- Source module-level `ref` (marker.py lines 355-356). -/
def ref (type : Desc) (signed : Bool) : PyClass :=
  pointer_new Ref type signed

/-- Source module-level `mut_ref` (marker.py lines 359-360). -/
def mut_ref (type : Desc) (signed : Bool) : PyClass :=
  pointer_new MutRef type signed

/-- Source module-level `array` (marker.py lines 435-436). -/
def array (type : Desc) (length : Option Int) : PyClass :=
  array_new Array type length

/-- Source module-level `mut_array` (marker.py lines 439-440). -/
def mut_array (type : Desc) (length : Option Int) : PyClass :=
  array_new MutArray type length

/-- Source module-level `dynamic_fill` (marker.py lines 488-489). -/
def dynamic_fill (fills : FillTable) : PyClass :=
  dynamic_fill_new DynamicFill fills

/-- Source module-level `fill` (marker.py lines 492-493): a fixed-size opaque
byte array, `array(char_t, length)`. -/
def fill (length : Int) : PyClass :=
  array (.prim .char_t) (some length)

/-- Source `MarkerType.assert_can_derive` (marker.py lines 241-243): raises
`TypeError` exactly when the class's `_derive` flag is false. -/
def assert_can_derive (cls : PyClass) : Except Err Unit :=
  if cls.derive then .ok () else .error (.cannotDerive cls.clsName)

/-- Modelled from the spec: `Visitor.visit_any` (`gd/memory/visitor.py`
absent from the sources) — dispatch of a class's payload to the per-kind
resolution rules.  Per the spec's table a pointer occupies `bits / 8` bytes
independently of its pointee, so the pointee is not consulted; an array class
whose `_type` slot was never assigned fails the way the Python attribute
lookup would. -/
def visitAny (cls : PyClass) (ctx : PlatformContext) : Except Err Layout :=
  match cls.kind with
  | .pointer _ _ => .ok ⟨ctx.bits / 8, ctx.bits / 8, []⟩
  | .array type? len =>
      match type? with
      | some t => resolveDesc [] ctx (.array t len)
      | none => .error (.attributeError "_type")
  | .dynamicFill table => resolveDesc [] ctx (.dynamicFill table)
  | .struct fields vt pk => resolveDesc [] ctx (.struct fields vt pk)
  | .union fields => resolveDesc [] ctx (.union fields)
  | .void => .error .voidNotDerivable

/-- Source `MarkerType.visit` (marker.py lines 245-248): first
`assert_can_derive`, then hand the class to the visitor. -/
def visit (cls : PyClass) (ctx : PlatformContext) : Except Err Layout := do
  assert_can_derive cls
  visitAny cls ctx

/-- Source `MarkerType.create` (marker.py lines 250-257): build a visitor
with the explicit `(bits, platform)` context and `visit` with it. -/
def create (cls : PyClass) (bits : Nat) (platform : Platform) :
    Except Err Layout :=
  visit cls ⟨bits, platform⟩

/-- Source `ArrayType.type` (marker.py lines 405-407): the type-level
property, `return cls._type`; reading it on a class whose `_type` slot was
never assigned raises `AttributeError`.  The result is the Python value of
the attribute (an `Option Desc`, where `none` would be Python `None`). -/
def ArrayType_type (cls : PyClass) : Except Err (Option Desc) :=
  match cls.kind with
  | .array type? _ =>
      match type? with
      | some t => .ok (some t)
      | none => .error (.attributeError "_type")
  | _ => .error (.attributeError "_type")

/-- Source `ArrayBase.type` (marker.py lines 418-420): the instance-level
`class_property` accessor.  Its body is the bare expression `self._type`
with no `return` statement, so it evaluates the attribute (raising
`AttributeError` when the slot was never assigned) and then returns `None`. -/
def ArrayBase_type (cls : PyClass) : Except Err (Option Desc) :=
  match cls.kind with
  | .array type? _ =>
      match type? with
      | some _ => .ok none
      | none => .error (.attributeError "_type")
  | _ => .error (.attributeError "_type")

/-- Source `ArrayType.length` (marker.py lines 409-411): `return
cls._length`; `_length` is assigned unconditionally by `ArrayType.__new__`,
so the read succeeds on every array class. -/
def ArrayType_length (cls : PyClass) : Except Err (Option Int) :=
  match cls.kind with
  | .array _ len => .ok len
  | _ => .error (.attributeError "_length")

/-- Source `ArrayBase.length` (marker.py lines 422-424): the instance-level
accessor, `return self._length` — this one does return its value. -/
def ArrayBase_length (cls : PyClass) : Except Err (Option Int) :=
  match cls.kind with
  | .array _ len => .ok len
  | _ => .error (.attributeError "_length")

/-- Source `Marker.__init__` (marker.py lines 85-87): unconditionally raises
`TypeError`. -/
def Marker_init : Except Err Unit :=
  .error (.typeError "Markers can not be initialized.")

/-- Instantiating any primitive marker class `byte_t` … `string_t`: none of
the subclasses (marker.py lines 92-219) overrides `__init__` or `__new__`,
so construction always runs the inherited `Marker.__init__`. -/
def primInstantiate (_k : PrimKind) : Except Err Unit :=
  Marker_init

/-- Source `Void.__new__` (marker.py lines 547-548): unconditionally raises
`TypeError`, so `Void` can never be instantiated. -/
def Void_new : Except Err Unit :=
  .error (.typeError "Can not instantiate void.")

/-- The 64-bit windows platform context used by the concrete examples. -/
def ctx64 : PlatformContext := ⟨64, .windows⟩

/-- Field list `a : int32_t, b : int64_t` of the spec's struct example. -/
def fieldsAB : Fields :=
  .cons "a" (.prim .int32_t) (.cons "b" (.prim .int64_t) .nil)

/-- The spec's example struct with fields `[int32, int64]`, not packed. -/
def structAB : Desc := .struct fieldsAB false false

/-- The same struct with `packed = True`. -/
def structABpacked : Desc := .struct fieldsAB false true

/-- The spec's example struct with `vtable = True` and a single `int32`
field. -/
def structVt : Desc := .struct (.cons "x" (.prim .int32_t) .nil) true false

/-- A struct `S` that contains itself by value: `S = struct S next`. -/
def selfStructEnv : Env :=
  [("S", .struct (.cons "next" (.name "S") .nil) false false)]

/-- The same struct with the self-reference behind a pointer:
`S = struct (pointer S) next`. -/
def ptrStructEnv : Env :=
  [("S", .struct (.cons "next" (.pointer (.name "S") false) .nil) false false)]

/-- The spec's `dynamic_fill(windows=4, macos=8)` example table, keyed for 64
bits. -/
def demoFill : FillTable := [((64, .windows), 4), ((64, .macos), 8)]

/-- The concrete parametrized array class `array(int32_t, 10)`. -/
def arrayInt32 : PyClass := array (.prim .int32_t) (some 10)

/-- Rounding up never moves an offset down. -/
theorem le_alignUp (off a : Nat) : off ≤ alignUp off a :=
  Nat.le_add_right off _

/-- `layoutFields` keeps the field names, in declaration order. -/
theorem layoutFields_names (packed : Bool) (off : Nat)
    (fls : List (String × Layout)) :
    (layoutFields packed off fls).1.map Prod.fst = fls.map Prod.fst := by
  induction fls generalizing off with
  | nil => rfl
  | cons f rest ih =>
    obtain ⟨n, l⟩ := f
    simp [layoutFields, ih]

/-- Every offset recorded by `layoutFields` is at least the start offset. -/
theorem layoutFields_le (packed : Bool) (off : Nat)
    (fls : List (String × Layout)) (nm : String) (o : Nat)
    (h : (nm, o) ∈ (layoutFields packed off fls).1) : off ≤ o := by
  induction fls generalizing off with
  | nil => simp [layoutFields] at h
  | cons f rest ih =>
    obtain ⟨n, l⟩ := f
    simp only [layoutFields] at h
    have hoff : off ≤ (if packed then off else alignUp off l.align) := by
      cases packed
      · exact le_alignUp off l.align
      · exact Nat.le_refl off
    rcases List.mem_cons.mp h with h1 | h1
    · have h2 : o = (if packed then off else alignUp off l.align) :=
        congrArg Prod.snd h1
      exact h2 ▸ hoff
    · exact Nat.le_trans (Nat.le_trans hoff (Nat.le_add_right _ l.size))
        (ih _ h1)

/-- Unfolding of `resolveDesc` on a dynamic-fill descriptor: a plain lookup
in the fill table. -/
theorem resolveDesc_dynamicFill (ctx : PlatformContext) (table : FillTable) :
    resolveDesc [] ctx (.dynamicFill table) =
      match lookupFill table ctx.bits ctx.platform with
      | some v => .ok ⟨v, 1, []⟩
      | none => .error .missingFillEntry :=
  rfl

/-- C1 (amended): for every platform context, resolving the bare
unparametrized `Array`, `MutArray`, `Struct` and `Union` templates fails with
the cannot-derive error; bare `Pointer`, however, is created with
`derive = True`, so `assert_can_derive` passes and — the pointer layout rule
never consulting the pointee — its resolution yields a plain pointer-sized
layout instead of failing. -/
theorem c1_bare_templates (ctx : PlatformContext) :
    visit Array ctx = .error (.cannotDerive "Array") ∧
    visit MutArray ctx = .error (.cannotDerive "MutArray") ∧
    visit Struct ctx = .error (.cannotDerive "Struct") ∧
    visit Union ctx = .error (.cannotDerive "Union") ∧
    Pointer.derive = true ∧
    assert_can_derive Pointer = .ok () ∧
    visit Pointer ctx = .ok ⟨ctx.bits / 8, ctx.bits / 8, []⟩ :=
  ⟨rfl, rfl, rfl, rfl, rfl, rfl, rfl⟩

/-- C1 counterexample: the claim is false for the bare `Pointer` template —
its `derive` flag is true, and resolving it at bits 64 on windows does not
produce the cannot-derive error. -/
theorem c1_counterexample :
    Pointer.derive = true ∧
    visit Pointer ⟨64, .windows⟩ ≠ .error (.cannotDerive "Pointer") :=
  ⟨rfl, by decide⟩

/-- C2 (amended): parametrizing any of the three templates produces a
descriptor class with `derive = true`, and the `Array` family of templates
keeps `derive = false`; but the bare `Pointer` (and `MutPointer`) and
`DynamicFill` templates themselves have `derive = true`, not false.
Classes are immutable values here, so no call changes a template's flag. -/
theorem c2_parametrize (cls : PyClass) (t : Desc) (s : Bool)
    (len : Option Int) (fills : FillTable) :
    (pointer_new cls t s).derive = true ∧
    (array_new cls t len).derive = true ∧
    (dynamic_fill_new cls fills).derive = true ∧
    Array.derive = false ∧
    MutArray.derive = false ∧
    ArrayBase.derive = false ∧
    Pointer.derive = true ∧
    MutPointer.derive = true ∧
    DynamicFill.derive = true :=
  ⟨rfl, rfl, rfl, rfl, rfl, rfl, rfl, rfl, rfl⟩

/-- C2 counterexample: the `Pointer` and `DynamicFill` templates do not have
`derivable = false` — both flags are true. -/
theorem c2_counterexample :
    Pointer.derive = true ∧ DynamicFill.derive = true :=
  ⟨rfl, rfl⟩

/-- C3: resolution is deterministic — two resolutions of the same descriptor
(or the same class) against the same platform context are value-equal. -/
theorem c3_deterministic (env : Env) (ctx : PlatformContext) (d : Desc)
    (cls : PyClass) (bits : Nat) (p : Platform)
    (r₁ r₂ s₁ s₂ : Except Err Layout)
    (h₁ : resolveDesc env ctx d = r₁) (h₂ : resolveDesc env ctx d = r₂)
    (h₃ : create cls bits p = s₁) (h₄ : create cls bits p = s₂) :
    r₁ = r₂ ∧ s₁ = s₂ :=
  ⟨by rw [← h₁, ← h₂], by rw [← h₃, ← h₄]⟩

/-- C3 witness: two concrete resolutions of `int32_t` and of
`pointer(int32_t)` at bits 64 on windows, equal run to run. -/
theorem c3_deterministic_witness :
    (Except.ok (⟨4, 4, []⟩ : Layout) : Except Err Layout) = .ok ⟨4, 4, []⟩ ∧
    (Except.ok (⟨8, 8, []⟩ : Layout) : Except Err Layout) = .ok ⟨8, 8, []⟩ :=
  c3_deterministic [] ctx64 (.prim .int32_t)
    (pointer (.prim .int32_t) false) 64 .windows
    (.ok ⟨4, 4, []⟩) (.ok ⟨4, 4, []⟩) (.ok ⟨8, 8, []⟩) (.ok ⟨8, 8, []⟩)
    (by decide) (by decide) (by decide) (by decide)

/-- C4: a struct that contains itself by value is rejected with the
recursive-layout error under every platform context, while the same struct
holding a pointer to itself resolves successfully (to a pointer-sized layout
at bits 64).  The resolver is a total function, so resolution terminates on
every descriptor graph. -/
theorem c4_recursive_layout :
    (∀ ctx : PlatformContext,
      resolveDesc selfStructEnv ctx (.name "S") = .error .recursiveLayout) ∧
    resolveDesc ptrStructEnv ctx64 (.name "S") =
      .ok ⟨8, 8, [("next", 0)]⟩ :=
  ⟨fun _ => rfl, by decide⟩

/-- C5 (amended): `Void` can never be resolved (its `derive` flag is false,
so every resolution fails) and never instantiated; but the resolution
failure is the generic cannot-derive `TypeError` raised by
`assert_can_derive`, the same kind every bare template raises — not a
distinct void-specific error. -/
theorem c5_void (ctx : PlatformContext) :
    visit Void ctx = .error (.cannotDerive "Void") ∧
    Void_new = .error (.typeError "Can not instantiate void.") :=
  ⟨rfl, rfl⟩

/-- C5 counterexample: resolving `Void` at bits 64 on windows fails with the
generic cannot-derive error, which is a different kind from the
void-not-derivable error the claim demands. -/
theorem c5_counterexample :
    visit Void ⟨64, .windows⟩ = .error (.cannotDerive "Void") ∧
    Err.cannotDerive "Void" ≠ Err.voidNotDerivable :=
  ⟨rfl, by decide⟩

/-- C6: resolving a dynamic-fill descriptor yields a fixed opaque region of
exactly the table's byte count when the context's `(bits, platform)` key is
present, and fails with the missing-fill-entry error (contributing no
zero-byte default) when it is absent. -/
theorem c6_dynamic_fill (table : FillTable) (ctx : PlatformContext)
    (v : Nat) :
    (lookupFill table ctx.bits ctx.platform = some v →
      resolveDesc [] ctx (.dynamicFill table) = .ok ⟨v, 1, []⟩) ∧
    (lookupFill table ctx.bits ctx.platform = none →
      resolveDesc [] ctx (.dynamicFill table) =
        .error .missingFillEntry) := by
  refine ⟨fun h => ?_, fun h => ?_⟩ <;> rw [resolveDesc_dynamicFill, h]

/-- C6 witness: `dynamic_fill(windows=4, macos=8)` resolved at bits 64 —
4 opaque bytes on windows, the missing-fill-entry error on linux. -/
theorem c6_dynamic_fill_witness :
    resolveDesc [] ⟨64, .windows⟩ (.dynamicFill demoFill) =
      .ok ⟨4, 1, []⟩ ∧
    resolveDesc [] ⟨64, .linux⟩ (.dynamicFill demoFill) =
      .error .missingFillEntry :=
  ⟨(c6_dynamic_fill demoFill ⟨64, .windows⟩ 4).1 (by decide),
   (c6_dynamic_fill demoFill ⟨64, .linux⟩ 0).2 (by decide)⟩

/-- C7: struct layout — the spec's concrete examples at bits 64 (fields
`[int32, int64]` laid out at offsets 0 and 8 with size 16; the packed
variant at offsets 0 and 4 with size 12 and alignment 1; the vtable variant
with its field pushed to offset 8) together with the general rules: a packed
struct has alignment 1, fields are recorded in declaration order, and with a
vtable every field offset lies at or after the pointer-width slot. -/
theorem c7_struct_layout :
    resolveDesc [] ctx64 structAB = .ok ⟨16, 8, [("a", 0), ("b", 8)]⟩ ∧
    resolveDesc [] ctx64 structABpacked =
      .ok ⟨12, 1, [("a", 0), ("b", 4)]⟩ ∧
    resolveDesc [] ctx64 structVt = .ok ⟨16, 8, [("x", 8)]⟩ ∧
    (∀ (p : Nat) (vt : Bool) (fls : List (String × Layout)),
      (structLayout p vt true fls).align = 1) ∧
    (∀ (p : Nat) (vt pk : Bool) (fls : List (String × Layout)),
      (structLayout p vt pk fls).offsets.map Prod.fst =
        fls.map Prod.fst) ∧
    (∀ (p : Nat) (pk : Bool) (fls : List (String × Layout)) (nm : String)
      (o : Nat), (nm, o) ∈ (structLayout p true pk fls).offsets → p ≤ o) := by
  refine ⟨by decide, by decide, by decide, fun p vt fls => rfl, ?_, ?_⟩
  · intro p vt pk fls
    exact layoutFields_names pk (if vt then p else 0) fls
  · intro p pk fls nm o h
    exact layoutFields_le pk p fls nm o h

/-- C7 witness: the vtable bound applied at a concrete field list. -/
theorem c7_struct_layout_witness : (8 : Nat) ≤ 8 :=
  c7_struct_layout.2.2.2.2.2 8 false [("x", ⟨4, 4, []⟩)] "x" 8 (by decide)

/-- C8: the two accessors for an array descriptor's element type disagree —
the type-level `ArrayType.type` returns the element `array(int32_t, 10)` was
built with, while the instance-level `ArrayBase.type` returns `None`
because its body lacks a `return` statement (the `length` accessors, which
do return, agree). -/
theorem c8_accessor_divergence :
    ArrayType_type arrayInt32 = .ok (some (.prim .int32_t)) ∧
    ArrayBase_type arrayInt32 = .ok none ∧
    ArrayType_length arrayInt32 = .ok (some 10) ∧
    ArrayBase_length arrayInt32 = .ok (some 10) ∧
    ArrayType_type arrayInt32 ≠ ArrayBase_type arrayInt32 := by
  refine ⟨rfl, rfl, rfl, rfl, fun h => ?_⟩
  have h2 : (some (Desc.prim .int32_t) : Option Desc) = none :=
    Except.ok.inj h
  exact Option.noConfusion h2

/-- C9: no primitive marker class can be instantiated — every subclass of
`Marker` runs the inherited `Marker.__init__`, which always raises
`TypeError`. -/
theorem c9_markers_not_instantiable (k : PrimKind) :
    primInstantiate k =
      .error (.typeError "Markers can not be initialized.") :=
  rfl

/-- C10: array construction never validates its arguments — for every
element descriptor and every length, `None` and negative integers included,
`array` and `mut_array` return a derivable descriptor class carrying exactly
that element and length. -/
theorem c10_array_construction (t : Desc) (len : Option Int) :
    (array t len).kind = ClassKind.array (some t) len ∧
    (mut_array t len).kind = ClassKind.array (some t) len ∧
    (array t len).derive = true ∧
    (mut_array t len).derive = true ∧
    ArrayType_type (array t len) = .ok (some t) ∧
    ArrayType_length (array t len) = .ok len ∧
    ArrayType_type (mut_array t len) = .ok (some t) ∧
    ArrayType_length (mut_array t len) = .ok len :=
  ⟨rfl, rfl, rfl, rfl, rfl, rfl, rfl, rfl⟩

end GD

